import Mathlib

set_option maxHeartbeats 1000000
set_option linter.unusedVariables false

/-! Shallow embedding of the drawing-command recorder in
src/src/core/SkRecorder.cpp: every canvas call becomes one tagged entry
appended to an ordered record; a drawable side table and a save/restore
tracker are maintained alongside.  Pointers are modelled as Option, C
buffers as lists, and invalid reads (a null dereference, or reading past
the end of a buffer) as an error value of type CopyErr. -/

/-- Scalar coordinate value (SkScalar).  Modelled as a rational number;
no claim depends on floating-point rounding behaviour. -/
abbrev SkScalar := Rat

/-- Color value (SkColor, a 32-bit word). -/
abbrev SkColor := Nat

/-- Point with two scalar coordinates (SkPoint). -/
structure SkPoint where
  x : SkScalar
  y : SkScalar
  deriving DecidableEq

/-- Rectangle with scalar edges (SkRect). -/
structure SkRect where
  left : SkScalar
  top : SkScalar
  right : SkScalar
  bottom : SkScalar
  deriving DecidableEq

/-- Rectangle with integer edges (SkIRect). -/
structure SkIRect where
  left : Int
  top : Int
  right : Int
  bottom : Int
  deriving DecidableEq

/-- Transform matrix (SkMatrix), a 3x3 matrix of scalars. -/
structure SkMatrix where
  m00 : SkScalar
  m01 : SkScalar
  m02 : SkScalar
  m10 : SkScalar
  m11 : SkScalar
  m12 : SkScalar
  m20 : SkScalar
  m21 : SkScalar
  m22 : SkScalar
  deriving DecidableEq

/-- Paint descriptor (SkPaint); opaque value type, only copied around. -/
structure SkPaint where
  id : Nat
  deriving DecidableEq

/-- Path geometry (SkPath); opaque value type. -/
structure SkPath where
  id : Nat
  deriving DecidableEq

/-- Rounded rectangle (SkRRect); opaque value type. -/
structure SkRRect where
  id : Nat
  deriving DecidableEq

/-- Region shape (SkRegion); opaque value type. -/
structure SkRegion where
  id : Nat
  deriving DecidableEq

/-- Raster surface (SkBitmap); opaque value type. -/
structure SkBitmap where
  id : Nat
  deriving DecidableEq

/-- Externally reference-counted image (SkImage); entries store a
non-owning reference, modelled as the value itself. -/
structure SkImage where
  id : Nat
  deriving DecidableEq

/-- Externally reference-counted text blob (SkTextBlob). -/
structure SkTextBlob where
  id : Nat
  deriving DecidableEq

/-- Externally reference-counted picture (SkPicture) as referenced by
DrawPicture entries. -/
structure SkPicture where
  id : Nat
  deriving DecidableEq

/-- Transfer mode object (SkXfermode); entries store a raw possibly-null
pointer to it. -/
structure SkXfermode where
  id : Nat
  deriving DecidableEq

/-- Bounding-box-hierarchy factory (SkBBHFactory), passed through to
drawable snapshots; opaque. -/
structure SkBBHFactory where
  id : Nat
  deriving DecidableEq

/-- Drawable object (SkCanvasDrawable): an externally reference-counted,
replayable drawing unit exposing getBounds(). -/
structure SkCanvasDrawable where
  id : Nat
  bounds : SkRect
  deriving DecidableEq

/-- Picture produced by SkCanvasDrawable::newPictureSnapshot.  The drawable
capability is an external collaborator; its snapshot is modelled freely as
the tuple of its inputs, which is all claim C6 needs: which drawable was
snapshotted with which factory and flags. -/
structure SnapshotPicture where
  drawable : SkCanvasDrawable
  factory : SkBBHFactory
  flags : Nat
  deriving DecidableEq

/-- Snapshot request (SkCanvasDrawable::newPictureSnapshot(factory, flags)). -/
def SkCanvasDrawable.newPictureSnapshot (d : SkCanvasDrawable)
    (factory : SkBBHFactory) (recordFlags : Nat) : SnapshotPicture :=
  SnapshotPicture.mk d factory recordFlags

/-- Region combining operation (SkRegion::Op). -/
inductive RegionOp
  | difference
  | intersect
  | union
  | xor
  | reverseDifference
  | replace
  deriving DecidableEq

/-- Clip edge style (SkCanvas::ClipEdgeStyle). -/
inductive ClipEdgeStyle
  | hard
  | soft
  deriving DecidableEq

/-- Test for the soft (antialiased) edge style, the comparison
kSoft_ClipEdgeStyle == edgeStyle from the clip entry points. -/
def ClipEdgeStyle.isSoft : ClipEdgeStyle → Bool
  | ClipEdgeStyle.soft => true
  | ClipEdgeStyle.hard => false

/-- Region operation packed with the antialiasing flag
(SkRecords::RegionOpAndAA). -/
structure RegionOpAndAA where
  op : RegionOp
  aa : Bool
  deriving DecidableEq

/-- Point drawing mode (SkCanvas::PointMode). -/
inductive PointMode
  | points
  | lines
  | polygon
  deriving DecidableEq

/-- Vertex drawing mode (SkCanvas::VertexMode). -/
inductive VertexMode
  | triangles
  | triangleStrip
  | triangleFan
  deriving DecidableEq

/-- One tagged record entry (the SkRecords variants), with one constructor
per APPEND call in SkRecorder.cpp.  Optional arena copies are Option
values; arena-copied arrays are Option of a list (none = the source
pointer was null); copied byte strings are Option of a byte list. -/
inductive SkRecordEntry
  | Clear (color : SkColor)
  | DrawPaint (paint : SkPaint)
  | DrawPoints (paint : SkPaint) (mode : PointMode) (count : Nat)
      (pts : Option (List SkPoint))
  | DrawRect (paint : SkPaint) (rect : SkRect)
  | DrawOval (paint : SkPaint) (oval : SkRect)
  | DrawRRect (paint : SkPaint) (rrect : SkRRect)
  | DrawDRRect (paint : SkPaint) (outer : SkRRect) (inner : SkRRect)
  | DrawDrawable (bounds : SkRect) (index : Nat)
  | DrawPath (paint : SkPaint) (path : SkPath)
  | DrawBitmap (paint : Option SkPaint) (bitmap : SkBitmap)
      (left : SkScalar) (top : SkScalar)
  | DrawBitmapRectToRect (paint : Option SkPaint) (bitmap : SkBitmap)
      (src : Option SkRect) (dst : SkRect) (flags : Nat)
  | DrawBitmapMatrix (paint : Option SkPaint) (bitmap : SkBitmap)
      (matrix : SkMatrix)
  | DrawBitmapNine (paint : Option SkPaint) (bitmap : SkBitmap)
      (center : SkIRect) (dst : SkRect)
  | DrawImage (paint : Option SkPaint) (image : SkImage)
      (left : SkScalar) (top : SkScalar)
  | DrawImageRect (paint : Option SkPaint) (image : SkImage)
      (src : Option SkRect) (dst : SkRect)
  | DrawSprite (paint : Option SkPaint) (bitmap : SkBitmap)
      (left : Int) (top : Int)
  | DrawText (paint : SkPaint) (text : Option (List UInt8))
      (byteLength : Nat) (x : SkScalar) (y : SkScalar)
  | DrawPosText (paint : SkPaint) (text : Option (List UInt8))
      (byteLength : Nat) (pos : Option (List SkPoint))
  | DrawPosTextH (paint : SkPaint) (text : Option (List UInt8))
      (byteLength : Nat) (xpos : Option (List SkScalar)) (constY : SkScalar)
  | DrawTextOnPath (paint : SkPaint) (text : Option (List UInt8))
      (byteLength : Nat) (path : SkPath) (matrix : Option SkMatrix)
  | DrawTextBlob (paint : SkPaint) (blob : SkTextBlob)
      (x : SkScalar) (y : SkScalar)
  | DrawPicture (paint : Option SkPaint) (pic : SkPicture)
      (matrix : Option SkMatrix)
  | DrawVertices (paint : SkPaint) (vmode : VertexMode) (vertexCount : Nat)
      (vertices : Option (List SkPoint)) (texs : Option (List SkPoint))
      (colors : Option (List SkColor)) (xmode : Option SkXfermode)
      (indices : Option (List Nat)) (indexCount : Nat)
  | DrawPatch (paint : SkPaint) (cubics : Option (List SkPoint))
      (colors : Option (List SkColor)) (texCoords : Option (List SkPoint))
      (xmode : Option SkXfermode)
  | Save
  | SaveLayer (bounds : Option SkRect) (paint : Option SkPaint) (flags : Nat)
  | Restore (devBounds : SkIRect) (matrix : SkMatrix)
  | PushCull (rect : SkRect)
  | PopCull
  | SetMatrix (matrix : SkMatrix)
  | ClipRect (devBounds : SkIRect) (rect : SkRect) (opAA : RegionOpAndAA)
  | ClipRRect (devBounds : SkIRect) (rrect : SkRRect) (opAA : RegionOpAndAA)
  | ClipPath (devBounds : SkIRect) (path : SkPath) (opAA : RegionOpAndAA)
  | ClipRegion (devBounds : SkIRect) (region : SkRegion) (op : RegionOp)
  | BeginCommentGroup (description : Option (List UInt8))
  | AddComment (key : Option (List UInt8)) (value : Option (List UInt8))
  | EndCommentGroup
  | DrawData (data : Option (List UInt8)) (length : Nat)
  deriving DecidableEq

/-- State of the base drawing-surface capability (the SkCanvas base class,
an external collaborator): it tracks the clip, from which the device-space
clip bounds devBounds() are queried, and the current total transform
matrix getTotalMatrix(). -/
structure CanvasBase where
  devBounds : SkIRect
  totalMatrix : SkMatrix
  deriving DecidableEq

/-- Recorder state: the entries appended so far to the record (fRecord),
the drawable side table (fDrawableList), the save-frame stack with the
most recent frame at the head (fSaveIsSaveLayer, true = layer save), the
running count of active layer saves (fSaveLayerCount, an int in the
source), and the base capability state it queries. -/
structure SkRecorder where
  fRecord : List SkRecordEntry
  fDrawableList : List SkCanvasDrawable
  fSaveIsSaveLayer : List Bool
  fSaveLayerCount : Int
  base : CanvasBase
  deriving DecidableEq

/-- Recorder as constructed (SkRecorder::SkRecorder): empty record view,
empty drawable table, empty save stack, fSaveLayerCount = 0, bound to the
given base-capability state. -/
def SkRecorder.init (b : CanvasBase) : SkRecorder :=
  SkRecorder.mk [] [] [] 0 b

/-- Append one entry to the record (the APPEND macro around
fRecord->append). -/
def appendEntry (s : SkRecorder) (e : SkRecordEntry) : SkRecorder :=
  { s with fRecord := s.fRecord ++ [e] }

/-- Invalid memory access during argument copying: dereferencing a null
pointer, or reading beyond the end of the pointed-to buffer.  Both are
undefined behaviour in the source and modelled as this error value. -/
inductive CopyErr
  | nullDeref
  | overRead
  deriving DecidableEq

/-- Read src[i] from a C array modelled as an optional list: reading
through a null pointer is a null dereference, reading past the end of the
buffer an over-read. -/
def readElem {α : Type} (src : Option (List α)) (i : Nat) : Except CopyErr α :=
  match src with
  | none => Except.error CopyErr.nullDeref
  | some xs =>
    match xs.get? i with
    | some a => Except.ok a
    | none => Except.error CopyErr.overRead

/-- Element loop of SkRecorder::copy(const T[], size_t): copy n elements
starting at index i, in order. -/
def copyElemsFrom {α : Type} (src : Option (List α)) (i : Nat) :
    Nat → Except CopyErr (List α)
  | 0 => Except.ok []
  | n + 1 =>
    match readElem src i with
    | Except.error e => Except.error e
    | Except.ok a =>
      match copyElemsFrom src (i + 1) n with
      | Except.error e => Except.error e
      | Except.ok rest => Except.ok (a :: rest)

/-- SkRecorder::copy(const T*): copy an optional value, skipped when the
pointer is null (the null test precedes the dereference, so a null
pointer is never read and the entry stores the absent marker none). -/
def SkRecorder.copy {α : Type} (src : Option α) : Option α :=
  match src with
  | none => none
  | some x => some x

/-- SkRecorder::copy(const T[], size_t): copy an array of count elements;
a null source yields the absent marker none without any read. -/
def SkRecorder.copyArray {α : Type} (src : Option (List α)) (count : Nat) :
    Except CopyErr (Option (List α)) :=
  match src with
  | none => Except.ok none
  | some _ =>
    match copyElemsFrom src 0 count with
    | Except.error e => Except.error e
    | Except.ok dst => Except.ok (some dst)

/-- Specialization SkRecorder::copy(const char[], size_t), a bulk memcpy
of count bytes; same read semantics as the element loop. -/
def SkRecorder.copyChars (src : Option (List UInt8)) (count : Nat) :
    Except CopyErr (Option (List UInt8)) :=
  match src with
  | none => Except.ok none
  | some _ =>
    match copyElemsFrom src 0 count with
    | Except.error e => Except.error e
    | Except.ok dst => Except.ok (some dst)

/-- C strlen: scans the pointed-to buffer for the first nul byte.  It
reads through its argument unconditionally, so a null pointer is
dereferenced; a buffer with no terminator is scanned past its end. -/
def skStrlen (src : Option (List UInt8)) : Except CopyErr Nat :=
  match src with
  | none => Except.error CopyErr.nullDeref
  | some buf =>
    if (0 : UInt8) ∈ buf then
      Except.ok (buf.takeWhile (fun b => b != 0)).length
    else
      Except.error CopyErr.overRead

/-- Specialization SkRecorder::copy(const char*) for nul-terminated
strings: returns this->copy(src, strlen(src) + 1).  Note strlen runs
before the null test inside the array copy ever happens. -/
def SkRecorder.copyCString (src : Option (List UInt8)) :
    Except CopyErr (Option (List UInt8)) :=
  match skStrlen src with
  | Except.error e => Except.error e
  | Except.ok n => SkRecorder.copyChars src (n + 1)

/-- Guarded array copy, the pattern `ptr ? this->copy(ptr, n) : NULL` used
by drawVertices and onDrawPatch. -/
def SkRecorder.copyIfPresent {α : Type} (src : Option (List α)) (count : Nat) :
    Except CopyErr (Option (List α)) :=
  match src with
  | none => Except.ok none
  | some _ => SkRecorder.copyArray src count

/-- SkRecorder::clear. -/
def SkRecorder.clear (s : SkRecorder) (color : SkColor) : SkRecorder :=
  appendEntry s (SkRecordEntry.Clear color)

/-- SkRecorder::drawPaint. -/
def SkRecorder.drawPaint (s : SkRecorder) (paint : SkPaint) : SkRecorder :=
  appendEntry s (SkRecordEntry.DrawPaint paint)

/-- SkRecorder::drawPoints: copies the point array. -/
def SkRecorder.drawPoints (s : SkRecorder) (mode : PointMode) (count : Nat)
    (pts : Option (List SkPoint)) (paint : SkPaint) :
    Except CopyErr SkRecorder :=
  match SkRecorder.copyArray pts count with
  | Except.error e => Except.error e
  | Except.ok c =>
    Except.ok (appendEntry s (SkRecordEntry.DrawPoints paint mode count c))

/-- SkRecorder::drawRect. -/
def SkRecorder.drawRect (s : SkRecorder) (rect : SkRect) (paint : SkPaint) :
    SkRecorder :=
  appendEntry s (SkRecordEntry.DrawRect paint rect)

/-- SkRecorder::drawOval. -/
def SkRecorder.drawOval (s : SkRecorder) (oval : SkRect) (paint : SkPaint) :
    SkRecorder :=
  appendEntry s (SkRecordEntry.DrawOval paint oval)

/-- SkRecorder::drawRRect. -/
def SkRecorder.drawRRect (s : SkRecorder) (rrect : SkRRect) (paint : SkPaint) :
    SkRecorder :=
  appendEntry s (SkRecordEntry.DrawRRect paint rrect)

/-- SkRecorder::onDrawDRRect. -/
def SkRecorder.onDrawDRRect (s : SkRecorder) (outer : SkRRect)
    (inner : SkRRect) (paint : SkPaint) : SkRecorder :=
  appendEntry s (SkRecordEntry.DrawDRRect paint outer inner)

/-- SkRecorder::onDrawDrawable: retains the drawable by appending it to
the side table, then appends an entry carrying the drawable bounds and
the index fDrawableList.count() - 1, the position of the slot just
appended. -/
def SkRecorder.onDrawDrawable (s : SkRecorder) (drawable : SkCanvasDrawable) :
    SkRecorder :=
  let s2 : SkRecorder := { s with fDrawableList := s.fDrawableList ++ [drawable] }
  appendEntry s2
    (SkRecordEntry.DrawDrawable drawable.bounds (s2.fDrawableList.length - 1))

/-- SkRecorder::drawPath. -/
def SkRecorder.drawPath (s : SkRecorder) (path : SkPath) (paint : SkPaint) :
    SkRecorder :=
  appendEntry s (SkRecordEntry.DrawPath paint path)

/-- SkRecorder::drawBitmap: the optional paint is arena-copied via
copy(const T*). -/
def SkRecorder.drawBitmap (s : SkRecorder) (bitmap : SkBitmap)
    (left : SkScalar) (top : SkScalar) (paint : Option SkPaint) : SkRecorder :=
  appendEntry s
    (SkRecordEntry.DrawBitmap (SkRecorder.copy paint) bitmap left top)

/-- SkRecorder::drawBitmapRectToRect: optional paint and optional source
rectangle are arena-copied. -/
def SkRecorder.drawBitmapRectToRect (s : SkRecorder) (bitmap : SkBitmap)
    (src : Option SkRect) (dst : SkRect) (paint : Option SkPaint)
    (flags : Nat) : SkRecorder :=
  appendEntry s
    (SkRecordEntry.DrawBitmapRectToRect (SkRecorder.copy paint) bitmap
      (SkRecorder.copy src) dst flags)

/-- SkRecorder::drawBitmapMatrix. -/
def SkRecorder.drawBitmapMatrix (s : SkRecorder) (bitmap : SkBitmap)
    (matrix : SkMatrix) (paint : Option SkPaint) : SkRecorder :=
  appendEntry s
    (SkRecordEntry.DrawBitmapMatrix (SkRecorder.copy paint) bitmap matrix)

/-- SkRecorder::drawBitmapNine. -/
def SkRecorder.drawBitmapNine (s : SkRecorder) (bitmap : SkBitmap)
    (center : SkIRect) (dst : SkRect) (paint : Option SkPaint) : SkRecorder :=
  appendEntry s
    (SkRecordEntry.DrawBitmapNine (SkRecorder.copy paint) bitmap center dst)

/-- SkRecorder::drawImage: the image reference is stored non-owning. -/
def SkRecorder.drawImage (s : SkRecorder) (image : SkImage)
    (left : SkScalar) (top : SkScalar) (paint : Option SkPaint) : SkRecorder :=
  appendEntry s
    (SkRecordEntry.DrawImage (SkRecorder.copy paint) image left top)

/-- SkRecorder::drawImageRect. -/
def SkRecorder.drawImageRect (s : SkRecorder) (image : SkImage)
    (src : Option SkRect) (dst : SkRect) (paint : Option SkPaint) :
    SkRecorder :=
  appendEntry s
    (SkRecordEntry.DrawImageRect (SkRecorder.copy paint) image
      (SkRecorder.copy src) dst)

/-- SkRecorder::drawSprite. -/
def SkRecorder.drawSprite (s : SkRecorder) (bitmap : SkBitmap)
    (left : Int) (top : Int) (paint : Option SkPaint) : SkRecorder :=
  appendEntry s
    (SkRecordEntry.DrawSprite (SkRecorder.copy paint) bitmap left top)

/-- SkRecorder::onDrawText: copies byteLength text bytes. -/
def SkRecorder.onDrawText (s : SkRecorder) (text : Option (List UInt8))
    (byteLength : Nat) (x : SkScalar) (y : SkScalar) (paint : SkPaint) :
    Except CopyErr SkRecorder :=
  match SkRecorder.copyChars text byteLength with
  | Except.error e => Except.error e
  | Except.ok c =>
    Except.ok (appendEntry s (SkRecordEntry.DrawText paint c byteLength x y))

/-- SkRecorder::onDrawPosText: copies the text bytes and one position per
glyph; countText stands for the value paint.countText(text, byteLength)
computed by the external SkPaint collaborator. -/
def SkRecorder.onDrawPosText (s : SkRecorder) (text : Option (List UInt8))
    (byteLength : Nat) (pos : Option (List SkPoint)) (countText : Nat)
    (paint : SkPaint) : Except CopyErr SkRecorder :=
  match SkRecorder.copyChars text byteLength with
  | Except.error e => Except.error e
  | Except.ok c =>
    match SkRecorder.copyArray pos countText with
    | Except.error e => Except.error e
    | Except.ok pc =>
      Except.ok
        (appendEntry s (SkRecordEntry.DrawPosText paint c byteLength pc))

/-- SkRecorder::onDrawPosTextH: like onDrawPosText with one x-coordinate
per glyph and a shared constY. -/
def SkRecorder.onDrawPosTextH (s : SkRecorder) (text : Option (List UInt8))
    (byteLength : Nat) (xpos : Option (List SkScalar)) (constY : SkScalar)
    (countText : Nat) (paint : SkPaint) : Except CopyErr SkRecorder :=
  match SkRecorder.copyChars text byteLength with
  | Except.error e => Except.error e
  | Except.ok c =>
    match SkRecorder.copyArray xpos countText with
    | Except.error e => Except.error e
    | Except.ok xc =>
      Except.ok
        (appendEntry s
          (SkRecordEntry.DrawPosTextH paint c byteLength xc constY))

/-- SkRecorder::onDrawTextOnPath: copies the text bytes and the optional
matrix. -/
def SkRecorder.onDrawTextOnPath (s : SkRecorder) (text : Option (List UInt8))
    (byteLength : Nat) (path : SkPath) (matrix : Option SkMatrix)
    (paint : SkPaint) : Except CopyErr SkRecorder :=
  match SkRecorder.copyChars text byteLength with
  | Except.error e => Except.error e
  | Except.ok c =>
    Except.ok
      (appendEntry s
        (SkRecordEntry.DrawTextOnPath paint c byteLength path
          (SkRecorder.copy matrix)))

/-- SkRecorder::onDrawTextBlob: the blob reference is stored non-owning. -/
def SkRecorder.onDrawTextBlob (s : SkRecorder) (blob : SkTextBlob)
    (x : SkScalar) (y : SkScalar) (paint : SkPaint) : SkRecorder :=
  appendEntry s (SkRecordEntry.DrawTextBlob paint blob x y)

/-- SkRecorder::onDrawPicture: optional paint and matrix are arena-copied,
the picture reference is stored non-owning. -/
def SkRecorder.onDrawPicture (s : SkRecorder) (pic : SkPicture)
    (matrix : Option SkMatrix) (paint : Option SkPaint) : SkRecorder :=
  appendEntry s
    (SkRecordEntry.DrawPicture (SkRecorder.copy paint) pic
      (SkRecorder.copy matrix))

/-- SkRecorder::drawVertices: vertices and indices are copied
unconditionally via copy(const T[], size_t) (whose own null test yields
the absent marker); texs and colors only when their pointer is non-null. -/
def SkRecorder.drawVertices (s : SkRecorder) (vmode : VertexMode)
    (vertexCount : Nat) (vertices : Option (List SkPoint))
    (texs : Option (List SkPoint)) (colors : Option (List SkColor))
    (xmode : Option SkXfermode) (indices : Option (List Nat))
    (indexCount : Nat) (paint : SkPaint) : Except CopyErr SkRecorder :=
  match SkRecorder.copyArray vertices vertexCount with
  | Except.error e => Except.error e
  | Except.ok vc =>
    match SkRecorder.copyIfPresent texs vertexCount with
    | Except.error e => Except.error e
    | Except.ok tc =>
      match SkRecorder.copyIfPresent colors vertexCount with
      | Except.error e => Except.error e
      | Except.ok cc =>
        match SkRecorder.copyArray indices indexCount with
        | Except.error e => Except.error e
        | Except.ok ic =>
          Except.ok
            (appendEntry s
              (SkRecordEntry.DrawVertices paint vmode vertexCount vc tc cc
                xmode ic indexCount))

/-- SkRecorder::onDrawPatch: cubics (12 control points), colors and
texCoords (4 corners each) are copied when present. -/
def SkRecorder.onDrawPatch (s : SkRecorder) (cubics : Option (List SkPoint))
    (colors : Option (List SkColor)) (texCoords : Option (List SkPoint))
    (xmode : Option SkXfermode) (paint : SkPaint) :
    Except CopyErr SkRecorder :=
  match SkRecorder.copyIfPresent cubics 12 with
  | Except.error e => Except.error e
  | Except.ok cu =>
    match SkRecorder.copyIfPresent colors 4 with
    | Except.error e => Except.error e
    | Except.ok co =>
      match SkRecorder.copyIfPresent texCoords 4 with
      | Except.error e => Except.error e
      | Except.ok tc =>
        Except.ok
          (appendEntry s (SkRecordEntry.DrawPatch paint cu co tc xmode))

/-- SkRecorder::willSave: pushes a plain-save frame and appends a Save
entry. -/
def SkRecorder.willSave (s : SkRecorder) : SkRecorder :=
  appendEntry { s with fSaveIsSaveLayer := false :: s.fSaveIsSaveLayer }
    SkRecordEntry.Save

/-- SkRecorder::willSaveLayer: increments fSaveLayerCount, pushes a
layer-save frame, and appends a SaveLayer entry with arena copies of the
optional bounds and paint (the source then returns
kNoLayer_SaveLayerStrategy, so the base never composites the layer
itself). -/
def SkRecorder.willSaveLayer (s : SkRecorder) (bounds : Option SkRect)
    (paint : Option SkPaint) (flags : Nat) : SkRecorder :=
  appendEntry
    { s with
      fSaveIsSaveLayer := true :: s.fSaveIsSaveLayer
      fSaveLayerCount := s.fSaveLayerCount + 1 }
    (SkRecordEntry.SaveLayer (SkRecorder.copy bounds) (SkRecorder.copy paint)
      flags)

/-- SkRecorder::didRestore: pops one save frame (popping an empty stack is
a fatal underflow, modelled as none), decrements fSaveLayerCount when the
popped frame was a layer save, and appends a Restore entry carrying the
current device bounds and total matrix queried from the base. -/
def SkRecorder.didRestore (s : SkRecorder) : Option SkRecorder :=
  match s.fSaveIsSaveLayer with
  | [] => none
  | b :: rest =>
    some
      (appendEntry
        { s with
          fSaveIsSaveLayer := rest
          fSaveLayerCount :=
            if b then s.fSaveLayerCount - 1 else s.fSaveLayerCount }
        (SkRecordEntry.Restore s.base.devBounds s.base.totalMatrix))

/-- SkRecorder::isDrawingToLayer: fSaveLayerCount > 0. -/
def SkRecorder.isDrawingToLayer (s : SkRecorder) : Bool :=
  decide (0 < s.fSaveLayerCount)

/-- SkRecorder::onPushCull. -/
def SkRecorder.onPushCull (s : SkRecorder) (rect : SkRect) : SkRecorder :=
  appendEntry s (SkRecordEntry.PushCull rect)

/-- SkRecorder::onPopCull. -/
def SkRecorder.onPopCull (s : SkRecorder) : SkRecorder :=
  appendEntry s SkRecordEntry.PopCull

/-- SkRecorder::didSetMatrix: appends a SetMatrix entry carrying the given
matrix (the source asserts, in debug builds, that it equals
getTotalMatrix()). -/
def SkRecorder.didSetMatrix (s : SkRecorder) (matrix : SkMatrix) : SkRecorder :=
  appendEntry s (SkRecordEntry.SetMatrix matrix)

/-- SkRecorder::didConcat: forwards to didSetMatrix with the current total
matrix queried from the base; the concat delta itself is discarded. -/
def SkRecorder.didConcat (s : SkRecorder) (matrix : SkMatrix) : SkRecorder :=
  SkRecorder.didSetMatrix s s.base.totalMatrix

/-- Full concat pipeline: the base capability applies the concat mutation
to its tracked total matrix (applyConcat models that external update) and
then notifies the recorder via didConcat, as SkCanvas does. -/
def concatViaBase (applyConcat : SkMatrix → SkMatrix → SkMatrix)
    (s : SkRecorder) (delta : SkMatrix) : SkRecorder :=
  SkRecorder.didConcat
    { s with base := { s.base with totalMatrix := applyConcat s.base.totalMatrix delta } }
    delta

/-- Full set-matrix pipeline: the base capability replaces its tracked
total matrix and then notifies the recorder via didSetMatrix with the
matrix it just set. -/
def setMatrixViaBase (s : SkRecorder) (m : SkMatrix) : SkRecorder :=
  SkRecorder.didSetMatrix
    { s with base := { s.base with totalMatrix := m } } m

/-- SkRecorder::onClipRect: first forwards to the base capability
(INHERITED(onClipRect, ...), modelled by the external state update
applyBase), then appends an entry with the post-clip device bounds, the
rectangle, and the region op packed with the antialiasing flag. -/
def SkRecorder.onClipRect (s : SkRecorder) (applyBase : CanvasBase → CanvasBase)
    (rect : SkRect) (op : RegionOp) (edgeStyle : ClipEdgeStyle) : SkRecorder :=
  let s2 : SkRecorder := { s with base := applyBase s.base }
  appendEntry s2
    (SkRecordEntry.ClipRect s2.base.devBounds rect
      (RegionOpAndAA.mk op edgeStyle.isSoft))

/-- SkRecorder::onClipRRect: same shape as onClipRect. -/
def SkRecorder.onClipRRect (s : SkRecorder) (applyBase : CanvasBase → CanvasBase)
    (rrect : SkRRect) (op : RegionOp) (edgeStyle : ClipEdgeStyle) : SkRecorder :=
  let s2 : SkRecorder := { s with base := applyBase s.base }
  appendEntry s2
    (SkRecordEntry.ClipRRect s2.base.devBounds rrect
      (RegionOpAndAA.mk op edgeStyle.isSoft))

/-- SkRecorder::onClipPath: same shape as onClipRect. -/
def SkRecorder.onClipPath (s : SkRecorder) (applyBase : CanvasBase → CanvasBase)
    (path : SkPath) (op : RegionOp) (edgeStyle : ClipEdgeStyle) : SkRecorder :=
  let s2 : SkRecorder := { s with base := applyBase s.base }
  appendEntry s2
    (SkRecordEntry.ClipPath s2.base.devBounds path
      (RegionOpAndAA.mk op edgeStyle.isSoft))

/-- SkRecorder::onClipRegion: forwards to the base, then appends the
post-clip device bounds, the region, and the op (no edge-style flag). -/
def SkRecorder.onClipRegion (s : SkRecorder) (applyBase : CanvasBase → CanvasBase)
    (deviceRgn : SkRegion) (op : RegionOp) : SkRecorder :=
  let s2 : SkRecorder := { s with base := applyBase s.base }
  appendEntry s2
    (SkRecordEntry.ClipRegion s2.base.devBounds deviceRgn op)

/-- SkRecorder::beginCommentGroup: the description string is copied via the
nul-terminated copy(const char*). -/
def SkRecorder.beginCommentGroup (s : SkRecorder)
    (description : Option (List UInt8)) : Except CopyErr SkRecorder :=
  match SkRecorder.copyCString description with
  | Except.error e => Except.error e
  | Except.ok c =>
    Except.ok (appendEntry s (SkRecordEntry.BeginCommentGroup c))

/-- SkRecorder::addComment: both strings are copied via the nul-terminated
copy(const char*). -/
def SkRecorder.addComment (s : SkRecorder) (key : Option (List UInt8))
    (value : Option (List UInt8)) : Except CopyErr SkRecorder :=
  match SkRecorder.copyCString key with
  | Except.error e => Except.error e
  | Except.ok kc =>
    match SkRecorder.copyCString value with
    | Except.error e => Except.error e
    | Except.ok vc =>
      Except.ok (appendEntry s (SkRecordEntry.AddComment kc vc))

/-- SkRecorder::endCommentGroup. -/
def SkRecorder.endCommentGroup (s : SkRecorder) : SkRecorder :=
  appendEntry s SkRecordEntry.EndCommentGroup

/-- SkRecorder::drawData: the data bytes are copied via the nul-terminated
copy(const char*), then the entry stores the copy and the length. -/
def SkRecorder.drawData (s : SkRecorder) (data : Option (List UInt8))
    (length : Nat) : Except CopyErr SkRecorder :=
  match SkRecorder.copyCString data with
  | Except.error e => Except.error e
  | Except.ok c =>
    Except.ok (appendEntry s (SkRecordEntry.DrawData c length))

/-- SkRecorder::newDrawableSnapshot: NULL when no drawable was recorded;
otherwise a buffer with one picture per side-table slot, the i-th picture
being fDrawableList[i]->newPictureSnapshot(factory, recordFlags). -/
def SkRecorder.newDrawableSnapshot (s : SkRecorder) (factory : SkBBHFactory)
    (recordFlags : Nat) : Option (List SnapshotPicture) :=
  if s.fDrawableList.length = 0 then none
  else
    some
      (s.fDrawableList.map
        (fun d => d.newPictureSnapshot factory recordFlags))

/-- Sequence of onDrawDrawable calls from a given state, one per list
element, in order. -/
def runDrawables (s : SkRecorder) (ds : List SkCanvasDrawable) : SkRecorder :=
  ds.foldl SkRecorder.onDrawDrawable s

/-- One call to a drawing entry point other than drawDrawable and the
save/restore notifications; each constructor carries that entry point's
arguments (for the clip calls, also the external base update the
forwarded INHERITED call performs). -/
inductive DrawCall
  | clear (color : SkColor)
  | drawPaint (paint : SkPaint)
  | drawPoints (mode : PointMode) (count : Nat) (pts : Option (List SkPoint))
      (paint : SkPaint)
  | drawRect (rect : SkRect) (paint : SkPaint)
  | drawOval (oval : SkRect) (paint : SkPaint)
  | drawRRect (rrect : SkRRect) (paint : SkPaint)
  | drawDRRect (outer : SkRRect) (inner : SkRRect) (paint : SkPaint)
  | drawPath (path : SkPath) (paint : SkPaint)
  | drawBitmap (bitmap : SkBitmap) (left : SkScalar) (top : SkScalar)
      (paint : Option SkPaint)
  | drawBitmapRectToRect (bitmap : SkBitmap) (src : Option SkRect)
      (dst : SkRect) (paint : Option SkPaint) (flags : Nat)
  | drawBitmapMatrix (bitmap : SkBitmap) (matrix : SkMatrix)
      (paint : Option SkPaint)
  | drawBitmapNine (bitmap : SkBitmap) (center : SkIRect) (dst : SkRect)
      (paint : Option SkPaint)
  | drawImage (image : SkImage) (left : SkScalar) (top : SkScalar)
      (paint : Option SkPaint)
  | drawImageRect (image : SkImage) (src : Option SkRect) (dst : SkRect)
      (paint : Option SkPaint)
  | drawSprite (bitmap : SkBitmap) (left : Int) (top : Int)
      (paint : Option SkPaint)
  | drawText (text : Option (List UInt8)) (byteLength : Nat) (x : SkScalar)
      (y : SkScalar) (paint : SkPaint)
  | drawPosText (text : Option (List UInt8)) (byteLength : Nat)
      (pos : Option (List SkPoint)) (countText : Nat) (paint : SkPaint)
  | drawPosTextH (text : Option (List UInt8)) (byteLength : Nat)
      (xpos : Option (List SkScalar)) (constY : SkScalar) (countText : Nat)
      (paint : SkPaint)
  | drawTextOnPath (text : Option (List UInt8)) (byteLength : Nat)
      (path : SkPath) (matrix : Option SkMatrix) (paint : SkPaint)
  | drawTextBlob (blob : SkTextBlob) (x : SkScalar) (y : SkScalar)
      (paint : SkPaint)
  | drawPicture (pic : SkPicture) (matrix : Option SkMatrix)
      (paint : Option SkPaint)
  | drawVertices (vmode : VertexMode) (vertexCount : Nat)
      (vertices : Option (List SkPoint)) (texs : Option (List SkPoint))
      (colors : Option (List SkColor)) (xmode : Option SkXfermode)
      (indices : Option (List Nat)) (indexCount : Nat) (paint : SkPaint)
  | drawPatch (cubics : Option (List SkPoint)) (colors : Option (List SkColor))
      (texCoords : Option (List SkPoint)) (xmode : Option SkXfermode)
      (paint : SkPaint)
  | pushCull (rect : SkRect)
  | popCull
  | beginCommentGroup (description : Option (List UInt8))
  | addComment (key : Option (List UInt8)) (value : Option (List UInt8))
  | endCommentGroup
  | drawData (data : Option (List UInt8)) (length : Nat)
  | didConcat (delta : SkMatrix)
  | didSetMatrix (m : SkMatrix)
  | clipRect (applyBase : CanvasBase → CanvasBase) (rect : SkRect)
      (op : RegionOp) (es : ClipEdgeStyle)
  | clipRRect (applyBase : CanvasBase → CanvasBase) (rrect : SkRRect)
      (op : RegionOp) (es : ClipEdgeStyle)
  | clipPath (applyBase : CanvasBase → CanvasBase) (path : SkPath)
      (op : RegionOp) (es : ClipEdgeStyle)
  | clipRegion (applyBase : CanvasBase → CanvasBase) (rgn : SkRegion)
      (op : RegionOp)

/-- Dispatch a DrawCall to the corresponding entry point; entry points
that cannot fault are wrapped in ok. -/
def execDraw (s : SkRecorder) : DrawCall → Except CopyErr SkRecorder
  | DrawCall.clear c => Except.ok (s.clear c)
  | DrawCall.drawPaint p => Except.ok (s.drawPaint p)
  | DrawCall.drawPoints m c pts p => s.drawPoints m c pts p
  | DrawCall.drawRect r p => Except.ok (s.drawRect r p)
  | DrawCall.drawOval o p => Except.ok (s.drawOval o p)
  | DrawCall.drawRRect r p => Except.ok (s.drawRRect r p)
  | DrawCall.drawDRRect o i p => Except.ok (s.onDrawDRRect o i p)
  | DrawCall.drawPath pa p => Except.ok (s.drawPath pa p)
  | DrawCall.drawBitmap b l t p => Except.ok (s.drawBitmap b l t p)
  | DrawCall.drawBitmapRectToRect b src d p f =>
    Except.ok (s.drawBitmapRectToRect b src d p f)
  | DrawCall.drawBitmapMatrix b m p => Except.ok (s.drawBitmapMatrix b m p)
  | DrawCall.drawBitmapNine b c d p => Except.ok (s.drawBitmapNine b c d p)
  | DrawCall.drawImage i l t p => Except.ok (s.drawImage i l t p)
  | DrawCall.drawImageRect i src d p => Except.ok (s.drawImageRect i src d p)
  | DrawCall.drawSprite b l t p => Except.ok (s.drawSprite b l t p)
  | DrawCall.drawText txt bl x y p => s.onDrawText txt bl x y p
  | DrawCall.drawPosText txt bl pos ct p => s.onDrawPosText txt bl pos ct p
  | DrawCall.drawPosTextH txt bl xp cy ct p =>
    s.onDrawPosTextH txt bl xp cy ct p
  | DrawCall.drawTextOnPath txt bl pa m p =>
    s.onDrawTextOnPath txt bl pa m p
  | DrawCall.drawTextBlob b x y p => Except.ok (s.onDrawTextBlob b x y p)
  | DrawCall.drawPicture pic m p => Except.ok (s.onDrawPicture pic m p)
  | DrawCall.drawVertices vm vc v t c x i ic p =>
    s.drawVertices vm vc v t c x i ic p
  | DrawCall.drawPatch cu co tc x p => s.onDrawPatch cu co tc x p
  | DrawCall.pushCull r => Except.ok (s.onPushCull r)
  | DrawCall.popCull => Except.ok s.onPopCull
  | DrawCall.beginCommentGroup d => s.beginCommentGroup d
  | DrawCall.addComment k v => s.addComment k v
  | DrawCall.endCommentGroup => Except.ok s.endCommentGroup
  | DrawCall.drawData d l => s.drawData d l
  | DrawCall.didConcat d => Except.ok (s.didConcat d)
  | DrawCall.didSetMatrix m => Except.ok (s.didSetMatrix m)
  | DrawCall.clipRect ab r op es => Except.ok (s.onClipRect ab r op es)
  | DrawCall.clipRRect ab r op es => Except.ok (s.onClipRRect ab r op es)
  | DrawCall.clipPath ab pa op es => Except.ok (s.onClipPath ab pa op es)
  | DrawCall.clipRegion ab r op => Except.ok (s.onClipRegion ab r op)

/-- One save/restore tracker notification, with the arguments the
recorder stores for a layer save. -/
inductive TrackOp
  | save
  | saveLayer (bounds : Option SkRect) (paint : Option SkPaint) (flags : Nat)
  | restore

/-- Test for the restore notification. -/
def TrackOp.isRestore : TrackOp → Bool
  | TrackOp.restore => true
  | _ => false

/-- Number of save or save-layer notifications in a sequence. -/
def savesCount (l : List TrackOp) : Nat :=
  l.countP (fun op => ! op.isRestore)

/-- Number of restore notifications in a sequence. -/
def restoresCount (l : List TrackOp) : Nat :=
  l.countP (fun op => op.isRestore)

/-- Dispatch one tracker notification (restore underflow is fatal). -/
def runOp (s : SkRecorder) : TrackOp → Option SkRecorder
  | TrackOp.save => some s.willSave
  | TrackOp.saveLayer b p f => some (s.willSaveLayer b p f)
  | TrackOp.restore => s.didRestore

/-- Run a sequence of tracker notifications in order. -/
def runOps (s : SkRecorder) : List TrackOp → Option SkRecorder
  | [] => some s
  | op :: rest =>
    match runOp s op with
    | none => none
    | some s2 => runOps s2 rest

/-- Balanced sequences of tracker notifications: each save or save-layer
is matched by a later restore, with proper nesting, starting and ending
at the same depth. -/
inductive BalancedOps : List TrackOp → Prop
  | nil : BalancedOps []
  | wrapSave {inner outer : List TrackOp} : BalancedOps inner →
      BalancedOps outer →
      BalancedOps (TrackOp.save :: inner ++ TrackOp.restore :: outer)
  | wrapLayer {inner outer : List TrackOp} (b : Option SkRect)
      (p : Option SkPaint) (f : Nat) : BalancedOps inner →
      BalancedOps outer →
      BalancedOps (TrackOp.saveLayer b p f :: inner ++ TrackOp.restore :: outer)

/-- Number of true entries on a save-frame stack. -/
def trues (l : List Bool) : Nat :=
  l.countP (fun b => b)

/-- Tracker invariant from the spec: fSaveLayerCount equals the number of
layer-save frames currently on the stack. -/
def RecInv (s : SkRecorder) : Prop :=
  s.fSaveLayerCount = (trues s.fSaveIsSaveLayer : Int)

/-- Frame condition for claim C10: the save-frame stack, the active-layer
count and the drawable side table are unchanged between two states. -/
def framePreserved (s t : SkRecorder) : Prop :=
  t.fSaveIsSaveLayer = s.fSaveIsSaveLayer ∧
    t.fSaveLayerCount = s.fSaveLayerCount ∧
    t.fDrawableList = s.fDrawableList

/-- Identity matrix, a concrete base total matrix for witnesses. -/
def identityMatrix : SkMatrix :=
  SkMatrix.mk 1 0 0 0 1 0 0 0 1

/-- Concrete base-capability state for witnesses: a 100 by 100 device with
the identity total matrix. -/
def cBase : CanvasBase :=
  CanvasBase.mk (SkIRect.mk 0 0 100 100) identityMatrix

/-- Concrete rectangle for witnesses. -/
def rect0 : SkRect :=
  SkRect.mk 0 0 10 10

/-- Concrete drawable for witnesses and counterexamples. -/
def d0 : SkCanvasDrawable :=
  SkCanvasDrawable.mk 0 rect0

/-- Second concrete drawable for witnesses. -/
def d1 : SkCanvasDrawable :=
  SkCanvasDrawable.mk 1 rect0

/-- Concrete paint for witnesses. -/
def paint0 : SkPaint :=
  SkPaint.mk 7

/-- Concrete factory for witnesses. -/
def fac0 : SkBBHFactory :=
  SkBBHFactory.mk 3

/-- Appending an entry changes only the record, never the save stack, the
layer count or the drawable table. -/
lemma framePreserved_append (s : SkRecorder) (e : SkRecordEntry) :
    framePreserved s (appendEntry s e) :=
  ⟨rfl, rfl, rfl⟩

/-- The element loop copies exactly the n elements starting at index i
when they all lie inside the buffer. -/
lemma copyElemsFrom_eq {α : Type} (xs : List α) :
    ∀ (n i : Nat), i + n ≤ xs.length →
      copyElemsFrom (some xs) i n = Except.ok ((xs.drop i).take n) := by
  intro n
  induction n with
  | zero => intro i h; simp [copyElemsFrom]
  | succ n ih =>
    intro i h
    have hi : i < xs.length := by omega
    have hread : readElem (some xs) i = Except.ok xs[i] := by
      simp [readElem, List.get?_eq_getElem?, List.getElem?_eq_getElem hi]
    simp only [copyElemsFrom, hread, ih (i + 1) (by omega)]
    rw [List.drop_eq_getElem_cons hi, List.take_succ_cons]

/-- Copying a non-null array of exactly its own length reproduces the
source list: same count, same elements, same order. -/
lemma copyArray_length {α : Type} (xs : List α) :
    SkRecorder.copyArray (some xs) xs.length = Except.ok (some xs) := by
  simp [SkRecorder.copyArray, copyElemsFrom_eq xs xs.length 0 (by omega)]

/-- Bulk character copy of a non-null buffer of exactly its own length
reproduces the source bytes. -/
lemma copyChars_length (bytes : List UInt8) :
    SkRecorder.copyChars (some bytes) bytes.length = Except.ok (some bytes) := by
  simp [SkRecorder.copyChars, copyElemsFrom_eq bytes bytes.length 0 (by omega)]

/-- A buffer containing a nul byte has its scan length strictly below the
buffer length, so strlen plus the terminator stays in bounds. -/
lemma takeWhile_nul_lt (buf : List UInt8) (h : (0 : UInt8) ∈ buf) :
    (buf.takeWhile (fun b => b != 0)).length < buf.length := by
  induction buf with
  | nil => simp at h
  | cons a l ih =>
    by_cases ha : a = 0
    · subst ha
      simp [List.takeWhile]
    · have h0 : (0 : UInt8) ∈ l := by
        rcases List.mem_cons.mp h with h1 | h1
        · exact absurd h1.symm ha
        · exact h1
      have hlt := ih h0
      have hab : (a != 0) = true := by
        simp [bne_iff_ne]
        exact ha
      simp [List.takeWhile, hab]
      omega

/-- Copying a non-null nul-terminated string succeeds and copies
strlen + 1 bytes of the buffer. -/
lemma copyCString_some (buf : List UInt8) (h : (0 : UInt8) ∈ buf) :
    SkRecorder.copyCString (some buf) =
      Except.ok
        (some (buf.take ((buf.takeWhile (fun b => b != 0)).length + 1))) := by
  have hlt := takeWhile_nul_lt buf h
  simp only [SkRecorder.copyCString, skStrlen, h, if_pos, SkRecorder.copyChars]
  rw [copyElemsFrom_eq buf ((buf.takeWhile (fun b => b != 0)).length + 1) 0
    (by omega)]
  simp

/-- The drawable side table after a sequence of onDrawDrawable calls is
the starting table extended by the drawables in call order. -/
lemma runDrawables_list (ds : List SkCanvasDrawable) :
    ∀ s : SkRecorder, (runDrawables s ds).fDrawableList = s.fDrawableList ++ ds := by
  induction ds with
  | nil => intro s; simp [runDrawables]
  | cons d rest ih =>
    intro s
    show (runDrawables (s.onDrawDrawable d) rest).fDrawableList = _
    rw [ih (s.onDrawDrawable d)]
    show (s.fDrawableList ++ [d]) ++ rest = s.fDrawableList ++ d :: rest
    simp

/-- C1 counterexample: the claim says a null pointer passed for the
nul-terminated string argument of drawData is never dereferenced, but the
source computes strlen(src) before any null test, which reads through the
null pointer. -/
theorem C1_counterexample :
    SkRecorder.drawData (SkRecorder.init cBase) none 4 =
      Except.error CopyErr.nullDeref := rfl

/-- C1 amended: the optional value pointers (paint, matrix, source
rectangle) and the array pointers are never dereferenced when null, and
the stored absent marker is distinct from a zero-element copy; the
nul-terminated string arguments of drawData, beginCommentGroup and
addComment, however, go through strlen before any null test, so a null
string pointer is dereferenced, while a properly terminated non-null
string is copied successfully. -/
theorem C1_amended_null_handling (α : Type) (v : α) (n : Nat)
    (buf : List UInt8) (hnul : (0 : UInt8) ∈ buf) :
    SkRecorder.copy (none : Option α) = none ∧
    SkRecorder.copy (some v) = some v ∧
    SkRecorder.copyArray (none : Option (List α)) n = Except.ok none ∧
    (none : Option (List α)) ≠ some [] ∧
    SkRecorder.copyCString none = Except.error CopyErr.nullDeref ∧
    (∃ r, SkRecorder.copyCString (some buf) = Except.ok (some r)) := by
  refine ⟨rfl, rfl, rfl, by simp, rfl, ?_⟩
  exact ⟨_, copyCString_some buf hnul⟩

/-- C1 witness: the amended claim evaluated at a concrete type, value,
count and terminated buffer. -/
theorem C1_witness :
    SkRecorder.copy (none : Option Nat) = none ∧
    SkRecorder.copy (some 5) = some 5 ∧
    SkRecorder.copyArray (none : Option (List Nat)) 3 = Except.ok none ∧
    (none : Option (List Nat)) ≠ some [] ∧
    SkRecorder.copyCString none = Except.error CopyErr.nullDeref ∧
    (∃ r, SkRecorder.copyCString (some [65, 0]) = Except.ok (some r)) :=
  C1_amended_null_handling Nat 5 3 [65, 0] (by decide)

/-- C2 counterexample: calling drawDrawable twice with the same drawable
does add a second slot, so the side table does repeat a drawable at a new
index; the first call yields one slot, the second call a second slot for
the same drawable. -/
theorem C2_counterexample :
    ((SkRecorder.init cBase).onDrawDrawable d0).fDrawableList = [d0] ∧
    (((SkRecorder.init cBase).onDrawDrawable d0).onDrawDrawable
        d0).fDrawableList = [d0, d0] :=
  ⟨rfl, rfl⟩

/-- C2 amended: each drawDrawable call appends exactly one new slot whose
index is the position of that call's append; the table records calls, not
distinct drawables, so a repeated drawable occupies a second slot at a new
index. -/
theorem C2_amended_each_call_appends (s : SkRecorder) (d : SkCanvasDrawable) :
    (s.onDrawDrawable d).fDrawableList = s.fDrawableList ++ [d] ∧
    ((s.onDrawDrawable d).onDrawDrawable d).fDrawableList =
      s.fDrawableList ++ [d, d] := by
  constructor
  · rfl
  · show (s.fDrawableList ++ [d]) ++ [d] = s.fDrawableList ++ [d, d]
    simp

/-- C3: a null array source always yields the absent marker (distinct
from a zero-length copy); a non-null source of the stated count is copied
with exactly that count, element-wise equal and in order (list equality);
and drawVertices stores exactly those copies in its entry, with absent
markers for null arrays. -/
theorem C3_array_copy_exact (α : Type) (n : Nat) (xs : List α)
    (bytes : List UInt8) (s : SkRecorder) (vmode : VertexMode)
    (paint : SkPaint) (xmode : Option SkXfermode)
    (verts : List SkPoint) (inds : List Nat)
    (hlen : xs.length = n) :
    SkRecorder.copyArray (none : Option (List α)) n = Except.ok none ∧
    (none : Option (List α)) ≠ some [] ∧
    SkRecorder.copyArray (some xs) n = Except.ok (some xs) ∧
    SkRecorder.copyChars (some bytes) bytes.length = Except.ok (some bytes) ∧
    s.drawVertices vmode verts.length (some verts) none none xmode
        (some inds) inds.length paint =
      Except.ok
        (appendEntry s
          (SkRecordEntry.DrawVertices paint vmode verts.length (some verts)
            none none xmode (some inds) inds.length)) ∧
    s.drawVertices vmode verts.length none none none xmode none
        inds.length paint =
      Except.ok
        (appendEntry s
          (SkRecordEntry.DrawVertices paint vmode verts.length none none
            none xmode none inds.length)) := by
  subst hlen
  refine ⟨rfl, by simp, copyArray_length xs, copyChars_length bytes, ?_, rfl⟩
  simp [SkRecorder.drawVertices, copyArray_length verts,
    copyArray_length inds, SkRecorder.copyIfPresent]

/-- C3 witness: the copy equations evaluated at concrete lists and a
concrete drawVertices call. -/
theorem C3_witness :
    SkRecorder.copyArray (none : Option (List Nat)) 2 = Except.ok none ∧
    (none : Option (List Nat)) ≠ some [] ∧
    SkRecorder.copyArray (some [10, 20]) 2 = Except.ok (some [10, 20]) ∧
    SkRecorder.copyChars (some [7, 8]) [(7 : UInt8), 8].length =
      Except.ok (some [7, 8]) ∧
    (SkRecorder.init cBase).drawVertices VertexMode.triangles
        [SkPoint.mk 1 2].length (some [SkPoint.mk 1 2]) none none none
        (some [0]) [0].length paint0 =
      Except.ok
        (appendEntry (SkRecorder.init cBase)
          (SkRecordEntry.DrawVertices paint0 VertexMode.triangles
            [SkPoint.mk 1 2].length (some [SkPoint.mk 1 2]) none none none
            (some [0]) [0].length)) ∧
    (SkRecorder.init cBase).drawVertices VertexMode.triangles
        [SkPoint.mk 1 2].length none none none none none [0].length paint0 =
      Except.ok
        (appendEntry (SkRecorder.init cBase)
          (SkRecordEntry.DrawVertices paint0 VertexMode.triangles
            [SkPoint.mk 1 2].length none none none none none [0].length)) :=
  C3_array_copy_exact Nat 2 [10, 20] [7, 8] (SkRecorder.init cBase)
    VertexMode.triangles paint0 none [SkPoint.mk 1 2] [0] rfl

/-- C7: every drawDrawable call appends exactly one slot to the side
table, leaving all existing slots and indices untouched, and the index
stored in the DrawDrawable entry equals the position of the slot this
call appended (the old table length). -/
theorem C7_drawDrawable_index (s : SkRecorder) (d : SkCanvasDrawable) :
    (s.onDrawDrawable d).fDrawableList = s.fDrawableList ++ [d] ∧
    (s.onDrawDrawable d).fRecord =
      s.fRecord ++
        [SkRecordEntry.DrawDrawable d.bounds s.fDrawableList.length] ∧
    s.fDrawableList.length + 1 = (s.onDrawDrawable d).fDrawableList.length := by
  refine ⟨rfl, ?_, ?_⟩
  · show s.fRecord ++
        [SkRecordEntry.DrawDrawable d.bounds
          ((s.fDrawableList ++ [d]).length - 1)] = _
    simp
  · show s.fDrawableList.length + 1 = (s.fDrawableList ++ [d]).length
    simp

/-- C6: newDrawableSnapshot is absent exactly when no drawable was
recorded; otherwise it is a buffer of one picture per drawDrawable call,
in call order, the i-th picture being the snapshot of the i-th recorded
drawable with the given factory and flags. -/
theorem C6_snapshot (b : CanvasBase) (ds : List SkCanvasDrawable)
    (factory : SkBBHFactory) (flags : Nat) :
    ((runDrawables (SkRecorder.init b) ds).newDrawableSnapshot factory flags =
        none ↔ ds = []) ∧
    ∀ pics,
      (runDrawables (SkRecorder.init b) ds).newDrawableSnapshot factory flags =
          some pics →
        pics.length = ds.length ∧
        ∀ i : Nat,
          pics[i]? =
            (ds[i]?).map (fun d => d.newPictureSnapshot factory flags) := by
  have hlist : (runDrawables (SkRecorder.init b) ds).fDrawableList = ds := by
    rw [runDrawables_list]
    rfl
  constructor
  · by_cases hds : ds = []
    · subst hds
      simp [SkRecorder.newDrawableSnapshot, hlist]
    · have hne : ds.length ≠ 0 := by
        simpa [List.length_eq_zero] using hds
      simp [SkRecorder.newDrawableSnapshot, hlist, hne, hds]
  · intro pics hp
    have hne : ds.length ≠ 0 := by
      intro h0
      rw [SkRecorder.newDrawableSnapshot, hlist, if_pos h0] at hp
      exact Option.noConfusion hp
    rw [SkRecorder.newDrawableSnapshot, hlist, if_neg hne] at hp
    have hpics : pics = ds.map (fun d => d.newPictureSnapshot factory flags) :=
      (Option.some.injEq _ _ ▸ hp).symm
    subst hpics
    constructor
    · simp
    · intro i
      simp [List.getElem?_map]

/-- C6 witness: two recorded drawables yield a two-picture buffer, and an
empty recording yields absent. -/
theorem C6_witness :
    ((runDrawables (SkRecorder.init cBase) [d0, d1]).newDrawableSnapshot fac0
        7 = none ↔ [d0, d1] = ([] : List SkCanvasDrawable)) ∧
    ∀ pics,
      (runDrawables (SkRecorder.init cBase) [d0, d1]).newDrawableSnapshot fac0
          7 = some pics →
        pics.length = [d0, d1].length ∧
        ∀ i : Nat,
          pics[i]? =
            ([d0, d1][i]?).map (fun d => d.newPictureSnapshot fac0 7) :=
  C6_snapshot cBase [d0, d1] fac0 7

/-- C8: both transform notifications append one SetMatrix entry whose
matrix is the total matrix as tracked by the base strictly after the base
applied the mutation, so the appended entries are identical regardless of
which mutating call produced them. -/
theorem C8_set_matrix_canonical (applyConcat : SkMatrix → SkMatrix → SkMatrix)
    (s : SkRecorder) (delta m : SkMatrix)
    (h : applyConcat s.base.totalMatrix delta = m) :
    (concatViaBase applyConcat s delta).fRecord =
      s.fRecord ++
        [SkRecordEntry.SetMatrix
          (concatViaBase applyConcat s delta).base.totalMatrix] ∧
    (setMatrixViaBase s m).fRecord =
      s.fRecord ++
        [SkRecordEntry.SetMatrix (setMatrixViaBase s m).base.totalMatrix] ∧
    (concatViaBase applyConcat s delta).fRecord =
      (setMatrixViaBase s m).fRecord := by
  subst h
  exact ⟨rfl, rfl, rfl⟩

/-- C8 witness: the canonical set-matrix entry evaluated with a concrete
base update function and matrices. -/
theorem C8_witness :
    (concatViaBase (fun a _ => a) (SkRecorder.init cBase)
        identityMatrix).fRecord =
      (SkRecorder.init cBase).fRecord ++
        [SkRecordEntry.SetMatrix
          (concatViaBase (fun a _ => a) (SkRecorder.init cBase)
              identityMatrix).base.totalMatrix] ∧
    (setMatrixViaBase (SkRecorder.init cBase) identityMatrix).fRecord =
      (SkRecorder.init cBase).fRecord ++
        [SkRecordEntry.SetMatrix
          (setMatrixViaBase (SkRecorder.init cBase)
              identityMatrix).base.totalMatrix] ∧
    (concatViaBase (fun a _ => a) (SkRecorder.init cBase)
        identityMatrix).fRecord =
      (setMatrixViaBase (SkRecorder.init cBase) identityMatrix).fRecord :=
  C8_set_matrix_canonical (fun a _ => a) (SkRecorder.init cBase)
    identityMatrix identityMatrix rfl

/-- C9: every clip-mutating call updates the base capability first and
appends one entry carrying the post-clip device bounds, the clip shape,
and the region operation (packed with the antialiasing flag for
rect, rrect and path). -/
theorem C9_clip_post_state (s : SkRecorder)
    (apRect apRR apPath apRgn : CanvasBase → CanvasBase)
    (rect : SkRect) (rrect : SkRRect) (path : SkPath) (rgn : SkRegion)
    (op : RegionOp) (es : ClipEdgeStyle) :
    (s.onClipRect apRect rect op es).base = apRect s.base ∧
    (s.onClipRect apRect rect op es).fRecord =
      s.fRecord ++
        [SkRecordEntry.ClipRect (apRect s.base).devBounds rect
          (RegionOpAndAA.mk op es.isSoft)] ∧
    (s.onClipRRect apRR rrect op es).base = apRR s.base ∧
    (s.onClipRRect apRR rrect op es).fRecord =
      s.fRecord ++
        [SkRecordEntry.ClipRRect (apRR s.base).devBounds rrect
          (RegionOpAndAA.mk op es.isSoft)] ∧
    (s.onClipPath apPath path op es).base = apPath s.base ∧
    (s.onClipPath apPath path op es).fRecord =
      s.fRecord ++
        [SkRecordEntry.ClipPath (apPath s.base).devBounds path
          (RegionOpAndAA.mk op es.isSoft)] ∧
    (s.onClipRegion apRgn rgn op).base = apRgn s.base ∧
    (s.onClipRegion apRgn rgn op).fRecord =
      s.fRecord ++
        [SkRecordEntry.ClipRegion (apRgn s.base).devBounds rgn op] :=
  ⟨rfl, rfl, rfl, rfl, rfl, rfl, rfl, rfl⟩

/-- Popping a nonempty save stack succeeds; the popped frame leaves the
stack tail, decrements the layer count exactly when the frame was a layer
save, and touches neither the drawable table nor the base state. -/
lemma didRestore_spec {s : SkRecorder} {b : Bool} {rest : List Bool}
    (h : s.fSaveIsSaveLayer = b :: rest) :
    ∃ t, s.didRestore = some t ∧ t.fSaveIsSaveLayer = rest ∧
      t.fSaveLayerCount =
        (if b then s.fSaveLayerCount - 1 else s.fSaveLayerCount) ∧
      t.fDrawableList = s.fDrawableList ∧ t.base = s.base := by
  refine ⟨appendEntry
    { s with
      fSaveIsSaveLayer := rest
      fSaveLayerCount :=
        if b then s.fSaveLayerCount - 1 else s.fSaveLayerCount }
    (SkRecordEntry.Restore s.base.devBounds s.base.totalMatrix),
    ?_, rfl, rfl, rfl, rfl⟩
  simp [SkRecorder.didRestore, h]

/-- Running a concatenation of notification sequences runs them one after
the other. -/
lemma runOps_append (a b : List TrackOp) :
    ∀ s : SkRecorder,
      runOps s (a ++ b) = (runOps s a).bind (fun t => runOps t b) := by
  induction a with
  | nil => intro s; rfl
  | cons op a2 ih =>
    intro s
    cases hop : runOp s op with
    | none => simp [runOps, hop]
    | some s2 => simp [runOps, hop, ih s2]

/-- Running a balanced notification sequence always succeeds and restores
the save stack, the layer count, the drawable table and the base state to
their starting values. -/
lemma runOps_balanced {l : List TrackOp} (hb : BalancedOps l) :
    ∀ s : SkRecorder,
      ∃ t, runOps s l = some t ∧
        t.fSaveIsSaveLayer = s.fSaveIsSaveLayer ∧
        t.fSaveLayerCount = s.fSaveLayerCount ∧
        t.fDrawableList = s.fDrawableList ∧ t.base = s.base := by
  induction hb with
  | nil => intro s; exact ⟨s, rfl, rfl, rfl, rfl, rfl⟩
  | @wrapSave inner outer hin hout ihin ihout =>
    intro s
    obtain ⟨t1, ht1, e1, e2, e3, e4⟩ := ihin s.willSave
    have e1' : t1.fSaveIsSaveLayer = false :: s.fSaveIsSaveLayer := e1
    obtain ⟨t2, hre, g1, g2, g3, g4⟩ := didRestore_spec e1'
    obtain ⟨t3, ht3, f1, f2, f3, f4⟩ := ihout t2
    refine ⟨t3, ?_, ?_, ?_, ?_, ?_⟩
    · show runOps s (TrackOp.save :: (inner ++ TrackOp.restore :: outer)) =
        some t3
      simp only [runOps, runOp]
      rw [runOps_append inner (TrackOp.restore :: outer) s.willSave, ht1]
      show runOps t1 (TrackOp.restore :: outer) = some t3
      simp only [runOps, runOp]
      rw [hre]
      exact ht3
    · exact f1.trans (g1.trans rfl)
    · have g2' : t2.fSaveLayerCount = t1.fSaveLayerCount := by
        simpa using g2
      have e2' : t1.fSaveLayerCount = s.fSaveLayerCount := e2
      omega
    · exact f3.trans (g3.trans e3)
    · exact f4.trans (g4.trans e4)
  | @wrapLayer inner outer bnds p fl hin hout ihin ihout =>
    intro s
    obtain ⟨t1, ht1, e1, e2, e3, e4⟩ := ihin (s.willSaveLayer bnds p fl)
    have e1' : t1.fSaveIsSaveLayer = true :: s.fSaveIsSaveLayer := e1
    obtain ⟨t2, hre, g1, g2, g3, g4⟩ := didRestore_spec e1'
    obtain ⟨t3, ht3, f1, f2, f3, f4⟩ := ihout t2
    refine ⟨t3, ?_, ?_, ?_, ?_, ?_⟩
    · show runOps s
        (TrackOp.saveLayer bnds p fl :: (inner ++ TrackOp.restore :: outer)) =
        some t3
      simp only [runOps, runOp]
      rw [runOps_append inner (TrackOp.restore :: outer)
        (s.willSaveLayer bnds p fl), ht1]
      show runOps t1 (TrackOp.restore :: outer) = some t3
      simp only [runOps, runOp]
      rw [hre]
      exact ht3
    · exact f1.trans (g1.trans rfl)
    · have g2' : t2.fSaveLayerCount = t1.fSaveLayerCount - 1 := by
        simpa using g2
      have e2' : t1.fSaveLayerCount = s.fSaveLayerCount + 1 := e2
      omega
    · exact f3.trans (g3.trans e3)
    · exact f4.trans (g4.trans e4)

/-- A balanced sequence has as many restores as saves. -/
lemma balanced_counts {l : List TrackOp} (hb : BalancedOps l) :
    restoresCount l = savesCount l := by
  induction hb with
  | nil => rfl
  | @wrapSave inner outer hin hout ihin ihout =>
    simp only [restoresCount, savesCount, List.countP_cons, List.countP_append,
      TrackOp.isRestore] at ihin ihout ⊢
    simp at ihin ihout ⊢
    omega
  | @wrapLayer inner outer bnds p fl hin hout ihin ihout =>
    simp only [restoresCount, savesCount, List.countP_cons, List.countP_append,
      TrackOp.isRestore] at ihin ihout ⊢
    simp at ihin ihout ⊢
    omega

/-- Case analysis for a prefix of a cons. -/
lemma prefix_cons_cases {α : Type} {a : α} {l q : List α} (h : q <+: a :: l) :
    q = [] ∨ ∃ q2, q = a :: q2 ∧ q2 <+: l := by
  cases q with
  | nil => exact Or.inl rfl
  | cons b q2 =>
    obtain ⟨r, hr⟩ := h
    rw [List.cons_append] at hr
    injection hr with h1 h2
    exact Or.inr ⟨q2, by rw [h1], ⟨r, h2⟩⟩

/-- Case analysis for a prefix of an append. -/
lemma prefix_append_cases {α : Type} {q a b : List α} (h : q <+: a ++ b) :
    q <+: a ∨ ∃ r, q = a ++ r ∧ r <+: b := by
  obtain ⟨t, ht⟩ := h
  rcases List.append_eq_append_iff.mp ht with ⟨a2, ha, hb⟩ | ⟨c2, hc, hd⟩
  · exact Or.inl ⟨a2, ha.symm⟩
  · exact Or.inr ⟨c2, hc, ⟨t, hd.symm⟩⟩

/-- Every prefix of a balanced sequence has at most as many restores as
saves: no restore can outrun its matching save. -/
lemma balanced_prefix_le {l : List TrackOp} (hb : BalancedOps l) :
    ∀ q, q <+: l → restoresCount q ≤ savesCount q := by
  induction hb with
  | nil =>
    intro q hq
    have hq' : q = [] := List.prefix_nil.mp hq
    subst hq'
    exact Nat.le_refl 0
  | @wrapSave inner outer hin hout ihin ihout =>
    intro q hq
    rcases prefix_cons_cases hq with rfl | ⟨q2, rfl, hq2⟩
    · exact Nat.le_refl 0
    · rcases prefix_append_cases hq2 with hq3 | ⟨r, rfl, hr⟩
      · have h1 := ihin q2 hq3
        simp only [restoresCount, savesCount, List.countP_cons,
          TrackOp.isRestore] at h1 ⊢
        simp at h1 ⊢
        omega
      · rcases prefix_cons_cases hr with rfl | ⟨r2, rfl, hr2⟩
        · have h2 := balanced_counts hin
          simp only [restoresCount, savesCount, List.countP_cons,
            List.countP_append, TrackOp.isRestore] at h2 ⊢
          simp at h2 ⊢
          omega
        · have h1 := ihout r2 hr2
          have h2 := balanced_counts hin
          simp only [restoresCount, savesCount, List.countP_cons,
            List.countP_append, TrackOp.isRestore] at h1 h2 ⊢
          simp at h1 h2 ⊢
          omega
  | @wrapLayer inner outer bnds p fl hin hout ihin ihout =>
    intro q hq
    rcases prefix_cons_cases hq with rfl | ⟨q2, rfl, hq2⟩
    · exact Nat.le_refl 0
    · rcases prefix_append_cases hq2 with hq3 | ⟨r, rfl, hr⟩
      · have h1 := ihin q2 hq3
        simp only [restoresCount, savesCount, List.countP_cons,
          TrackOp.isRestore] at h1 ⊢
        simp at h1 ⊢
        omega
      · rcases prefix_cons_cases hr with rfl | ⟨r2, rfl, hr2⟩
        · have h2 := balanced_counts hin
          simp only [restoresCount, savesCount, List.countP_cons,
            List.countP_append, TrackOp.isRestore] at h2 ⊢
          simp at h2 ⊢
          omega
        · have h1 := ihout r2 hr2
          have h2 := balanced_counts hin
          simp only [restoresCount, savesCount, List.countP_cons,
            List.countP_append, TrackOp.isRestore] at h1 h2 ⊢
          simp at h1 h2 ⊢
          omega

/-- Running a sequence whose prefixes never pop more frames than were
pushed on top of a protected stack segment succeeds and leaves that
bottom segment of the save stack untouched. -/
lemma runOps_bottom :
    ∀ (l : List TrackOp) (u st : List Bool) (s : SkRecorder),
      s.fSaveIsSaveLayer = u ++ st →
      (∀ q, q <+: l → restoresCount q ≤ savesCount q + u.length) →
      ∃ t u2, runOps s l = some t ∧ t.fSaveIsSaveLayer = u2 ++ st := by
  intro l
  induction l with
  | nil =>
    intro u st s hs hcond
    exact ⟨s, u, rfl, hs⟩
  | cons op l2 ih =>
    intro u st s hs hcond
    cases op with
    | save =>
      have hs2 : (s.willSave).fSaveIsSaveLayer = (false :: u) ++ st := by
        show false :: s.fSaveIsSaveLayer = (false :: u) ++ st
        rw [hs]
        rfl
      have hcond2 : ∀ q, q <+: l2 →
          restoresCount q ≤ savesCount q + (false :: u).length := by
        intro q hq
        have hq2 : TrackOp.save :: q <+: TrackOp.save :: l2 := by
          obtain ⟨r, hr⟩ := hq
          exact ⟨r, by rw [List.cons_append, hr]⟩
        have h1 := hcond _ hq2
        simp only [restoresCount, savesCount, List.countP_cons,
          TrackOp.isRestore, List.length_cons] at h1 ⊢
        simp at h1 ⊢
        omega
      obtain ⟨t, u2, ht, hts⟩ := ih (false :: u) st s.willSave hs2 hcond2
      refine ⟨t, u2, ?_, hts⟩
      show runOps s (TrackOp.save :: l2) = some t
      simp only [runOps, runOp]
      exact ht
    | saveLayer bnds p fl =>
      have hs2 : (s.willSaveLayer bnds p fl).fSaveIsSaveLayer =
          (true :: u) ++ st := by
        show true :: s.fSaveIsSaveLayer = (true :: u) ++ st
        rw [hs]
        rfl
      have hcond2 : ∀ q, q <+: l2 →
          restoresCount q ≤ savesCount q + (true :: u).length := by
        intro q hq
        have hq2 : TrackOp.saveLayer bnds p fl :: q <+:
            TrackOp.saveLayer bnds p fl :: l2 := by
          obtain ⟨r, hr⟩ := hq
          exact ⟨r, by rw [List.cons_append, hr]⟩
        have h1 := hcond _ hq2
        simp only [restoresCount, savesCount, List.countP_cons,
          TrackOp.isRestore, List.length_cons] at h1 ⊢
        simp at h1 ⊢
        omega
      obtain ⟨t, u2, ht, hts⟩ :=
        ih (true :: u) st (s.willSaveLayer bnds p fl) hs2 hcond2
      refine ⟨t, u2, ?_, hts⟩
      show runOps s (TrackOp.saveLayer bnds p fl :: l2) = some t
      simp only [runOps, runOp]
      exact ht
    | restore =>
      cases u with
      | nil =>
        exfalso
        have h1 := hcond [TrackOp.restore] ⟨l2, rfl⟩
        simp [restoresCount, savesCount, List.countP_cons,
          TrackOp.isRestore] at h1
      | cons b u3 =>
        have hs2 : s.fSaveIsSaveLayer = b :: (u3 ++ st) := by
          rw [hs]
          rfl
        obtain ⟨t2, hre, g1, g2, g3, g4⟩ := didRestore_spec hs2
        have hcond2 : ∀ q, q <+: l2 →
            restoresCount q ≤ savesCount q + u3.length := by
          intro q hq
          have hq2 : TrackOp.restore :: q <+: TrackOp.restore :: l2 := by
            obtain ⟨r, hr⟩ := hq
            exact ⟨r, by rw [List.cons_append, hr]⟩
          have h1 := hcond _ hq2
          simp only [restoresCount, savesCount, List.countP_cons,
            TrackOp.isRestore, List.length_cons] at h1 ⊢
          simp at h1 ⊢
          omega
        obtain ⟨t, u2, ht, hts⟩ := ih u3 st t2 g1 hcond2
        refine ⟨t, u2, ?_, hts⟩
        show runOps s (TrackOp.restore :: l2) = some t
        simp only [runOps, runOp]
        rw [hre]
        exact ht

/-- One tracker notification preserves the invariant that fSaveLayerCount
counts the layer frames on the stack. -/
lemma recInv_runOp {s t : SkRecorder} {op : TrackOp} (h : RecInv s)
    (hrun : runOp s op = some t) : RecInv t := by
  cases op with
  | save =>
    have ht : s.willSave = t := by
      have h2 := hrun
      simp [runOp] at h2
      exact h2
    subst ht
    unfold RecInv trues at h ⊢
    show s.fSaveLayerCount =
      ((false :: s.fSaveIsSaveLayer).countP (fun b => b) : Int)
    simp [List.countP_cons]
    exact h
  | saveLayer bnds p fl =>
    have ht : s.willSaveLayer bnds p fl = t := by
      have h2 := hrun
      simp [runOp] at h2
      exact h2
    subst ht
    unfold RecInv trues at h ⊢
    show s.fSaveLayerCount + 1 =
      ((true :: s.fSaveIsSaveLayer).countP (fun b => b) : Int)
    simp [List.countP_cons]
    omega
  | restore =>
    cases hstack : s.fSaveIsSaveLayer with
    | nil =>
      exfalso
      have hnone : s.didRestore = none := by
        simp [SkRecorder.didRestore, hstack]
      have h2 : s.didRestore = some t := hrun
      rw [hnone] at h2
      exact Option.noConfusion h2
    | cons b rest =>
      obtain ⟨t2, hre, g1, g2, g3, g4⟩ := didRestore_spec hstack
      have ht : t2 = t := by
        have h2 : s.didRestore = some t := hrun
        rw [hre] at h2
        injection h2
      subst ht
      unfold RecInv trues at h ⊢
      rw [hstack] at h
      rw [g1, g2]
      cases b with
      | false =>
        simp [List.countP_cons] at h ⊢
        omega
      | true =>
        simp [List.countP_cons] at h ⊢
        omega

/-- The tracker invariant is preserved along any successful run. -/
lemma recInv_runOps {l : List TrackOp} :
    ∀ {s t : SkRecorder}, RecInv s → runOps s l = some t → RecInv t := by
  induction l with
  | nil =>
    intro s t h hr
    have hst : s = t := by simpa [runOps] using hr
    subst hst
    exact h
  | cons op l2 ih =>
    intro s t h hr
    cases hop : runOp s op with
    | none =>
      exfalso
      simp only [runOps] at hr
      rw [hop] at hr
      exact Option.noConfusion hr
    | some s2 =>
      simp only [runOps] at hr
      rw [hop] at hr
      exact ih (recInv_runOp h hop) hr

/-- C4: a balanced sequence of willSave, willSaveLayer and didRestore
notifications run from the freshly constructed recorder completes with
an empty save-frame stack and with fSaveLayerCount back at its initial
value 0. -/
theorem C4_balanced_returns_empty (b : CanvasBase) (ops : List TrackOp)
    (hb : BalancedOps ops) :
    ∃ t, runOps (SkRecorder.init b) ops = some t ∧
      t.fSaveIsSaveLayer = [] ∧ t.fSaveLayerCount = 0 := by
  obtain ⟨t, ht, e1, e2, e3, e4⟩ := runOps_balanced hb (SkRecorder.init b)
  exact ⟨t, ht, e1, e2⟩

/-- C4 witness: a save-layer wrapping a plain save/restore pair, then the
closing restore, ends with the empty stack and layer count 0. -/
theorem C4_witness :
    ∃ t, runOps (SkRecorder.init cBase)
        [TrackOp.saveLayer none none 0, TrackOp.save, TrackOp.restore,
          TrackOp.restore] = some t ∧
      t.fSaveIsSaveLayer = [] ∧ t.fSaveLayerCount = 0 :=
  C4_balanced_returns_empty cBase
    [TrackOp.saveLayer none none 0, TrackOp.save, TrackOp.restore,
      TrackOp.restore]
    (@BalancedOps.wrapLayer [TrackOp.save, TrackOp.restore] [] none none 0
      (@BalancedOps.wrapSave [] [] BalancedOps.nil BalancedOps.nil)
      BalancedOps.nil)

/-- C5: isDrawingToLayer is true immediately after willSaveLayer; it
stays true at every intermediate point of the balanced inner sequence
preceding the matching didRestore (which covers plain save/restore pairs
nested inside the layer); and the matching restore brings the layer count
back to its previous value, so the flag is false again when no enclosing
layer was open. -/
theorem C5_layer_flag (s : SkRecorder) (bnds : Option SkRect)
    (p : Option SkPaint) (f : Nat) (inner pre post : List TrackOp)
    (hInv : RecInv s) (hb : BalancedOps inner) (hsplit : inner = pre ++ post) :
    (s.willSaveLayer bnds p f).isDrawingToLayer = true ∧
    (∃ t, runOps (s.willSaveLayer bnds p f) pre = some t ∧
      t.isDrawingToLayer = true) ∧
    (∃ r, runOps (s.willSaveLayer bnds p f) (inner ++ [TrackOp.restore]) =
        some r ∧
      r.fSaveLayerCount = s.fSaveLayerCount ∧
      (s.fSaveLayerCount = 0 → r.isDrawingToLayer = false)) := by
  have hnn : 0 ≤ s.fSaveLayerCount := by
    rw [hInv]
    exact Int.natCast_nonneg _
  have hInv' : RecInv (s.willSaveLayer bnds p f) := by
    unfold RecInv trues at hInv ⊢
    show s.fSaveLayerCount + 1 =
      ((true :: s.fSaveIsSaveLayer).countP (fun b => b) : Int)
    simp [List.countP_cons]
    omega
  refine ⟨?_, ?_, ?_⟩
  · show decide (0 < s.fSaveLayerCount + 1) = true
    simp
    omega
  · have hpre : pre <+: inner := ⟨post, hsplit.symm⟩
    have hcond : ∀ q, q <+: pre →
        restoresCount q ≤ savesCount q + ([] : List Bool).length := by
      intro q hq
      simpa using balanced_prefix_le hb q (hq.trans hpre)
    have hs2 : (s.willSaveLayer bnds p f).fSaveIsSaveLayer =
        [] ++ (true :: s.fSaveIsSaveLayer) := rfl
    obtain ⟨t, u2, ht, hts⟩ := runOps_bottom pre []
      (true :: s.fSaveIsSaveLayer) (s.willSaveLayer bnds p f) hs2 hcond
    refine ⟨t, ht, ?_⟩
    have hInvT : RecInv t := recInv_runOps hInv' ht
    unfold RecInv trues at hInvT
    rw [hts] at hInvT
    simp [List.countP_append, List.countP_cons] at hInvT
    show decide (0 < t.fSaveLayerCount) = true
    simp
    omega
  · obtain ⟨t1, ht1, e1, e2, e3, e4⟩ :=
      runOps_balanced hb (s.willSaveLayer bnds p f)
    have e1' : t1.fSaveIsSaveLayer = true :: s.fSaveIsSaveLayer := e1
    have e2' : t1.fSaveLayerCount = s.fSaveLayerCount + 1 := e2
    obtain ⟨t2, hre, g1, g2, g3, g4⟩ := didRestore_spec e1'
    have g2' : t2.fSaveLayerCount = s.fSaveLayerCount := by
      rw [g2]
      simp
      omega
    refine ⟨t2, ?_, g2', ?_⟩
    · rw [runOps_append inner [TrackOp.restore] (s.willSaveLayer bnds p f),
        ht1]
      show runOps t1 [TrackOp.restore] = some t2
      simp only [runOps, runOp]
      rw [hre]
    · intro h0
      show decide (0 < t2.fSaveLayerCount) = false
      rw [g2', h0]
      rfl

/-- C5 witness: a fresh recorder, one willSaveLayer, a nested plain
save/restore pair, and the matching restore, evaluated concretely. -/
theorem C5_witness :
    ((SkRecorder.init cBase).willSaveLayer none none 0).isDrawingToLayer =
      true ∧
    (∃ t, runOps ((SkRecorder.init cBase).willSaveLayer none none 0)
        [TrackOp.save] = some t ∧ t.isDrawingToLayer = true) ∧
    (∃ r, runOps ((SkRecorder.init cBase).willSaveLayer none none 0)
        ([TrackOp.save, TrackOp.restore] ++ [TrackOp.restore]) = some r ∧
      r.fSaveLayerCount = (SkRecorder.init cBase).fSaveLayerCount ∧
      ((SkRecorder.init cBase).fSaveLayerCount = 0 →
        r.isDrawingToLayer = false)) :=
  C5_layer_flag (SkRecorder.init cBase) none none 0
    [TrackOp.save, TrackOp.restore] [TrackOp.save] [TrackOp.restore]
    rfl (@BalancedOps.wrapSave [] [] BalancedOps.nil BalancedOps.nil) rfl

/-- A successful didRestore never touches the drawable side table. -/
lemma didRestore_drawables {s r : SkRecorder} (hr : s.didRestore = some r) :
    r.fDrawableList = s.fDrawableList := by
  cases hstack : s.fSaveIsSaveLayer with
  | nil =>
    exfalso
    have hnone : s.didRestore = none := by
      simp [SkRecorder.didRestore, hstack]
    rw [hnone] at hr
    exact Option.noConfusion hr
  | cons b rest =>
    obtain ⟨t2, hre, g1, g2, g3, g4⟩ := didRestore_spec hstack
    rw [hre] at hr
    injection hr with h2
    rw [← h2]
    exact g3

/-- C10: every drawing entry point other than drawDrawable (including the
clip, matrix, cull, comment and drawData calls) leaves the save-frame
stack, the active-layer count and the drawable side table unchanged;
drawDrawable changes only the side table, and willSave, willSaveLayer and
didRestore leave the side table unchanged, so only they modify the stack
and the layer count. -/
theorem C10_draws_frame_neutral (s t r : SkRecorder) (c : DrawCall)
    (d : SkCanvasDrawable) (bnds : Option SkRect) (p : Option SkPaint)
    (f : Nat)
    (hc : execDraw s c = Except.ok t) (hr : s.didRestore = some r) :
    framePreserved s t ∧
    (s.onDrawDrawable d).fSaveIsSaveLayer = s.fSaveIsSaveLayer ∧
    (s.onDrawDrawable d).fSaveLayerCount = s.fSaveLayerCount ∧
    (s.willSave).fDrawableList = s.fDrawableList ∧
    (s.willSaveLayer bnds p f).fDrawableList = s.fDrawableList ∧
    r.fDrawableList = s.fDrawableList := by
  have hframe : framePreserved s t := by
    cases c <;>
      simp only [execDraw, SkRecorder.clear, SkRecorder.drawPaint,
        SkRecorder.drawPoints, SkRecorder.drawRect, SkRecorder.drawOval,
        SkRecorder.drawRRect, SkRecorder.onDrawDRRect, SkRecorder.drawPath,
        SkRecorder.drawBitmap, SkRecorder.drawBitmapRectToRect,
        SkRecorder.drawBitmapMatrix, SkRecorder.drawBitmapNine,
        SkRecorder.drawImage, SkRecorder.drawImageRect, SkRecorder.drawSprite,
        SkRecorder.onDrawText, SkRecorder.onDrawPosText,
        SkRecorder.onDrawPosTextH, SkRecorder.onDrawTextOnPath,
        SkRecorder.onDrawTextBlob, SkRecorder.onDrawPicture,
        SkRecorder.drawVertices, SkRecorder.onDrawPatch,
        SkRecorder.onPushCull, SkRecorder.onPopCull,
        SkRecorder.beginCommentGroup, SkRecorder.addComment,
        SkRecorder.endCommentGroup, SkRecorder.drawData,
        SkRecorder.didConcat, SkRecorder.didSetMatrix, SkRecorder.onClipRect,
        SkRecorder.onClipRRect, SkRecorder.onClipPath,
        SkRecorder.onClipRegion] at hc <;>
      (repeat' (split at hc)) <;>
      first
        | (injection hc with h2; subst h2; exact ⟨rfl, rfl, rfl⟩)
        | exact Except.noConfusion hc
  exact ⟨hframe, rfl, rfl, rfl, rfl, didRestore_drawables hr⟩

/-- C10 witness: a concrete recorder with one open save frame, a clear
call, a drawDrawable call, further save notifications and a restore, all
evaluated concretely. -/
theorem C10_witness :
    framePreserved ((SkRecorder.init cBase).willSave)
      (appendEntry ((SkRecorder.init cBase).willSave)
        (SkRecordEntry.Clear 1)) ∧
    (((SkRecorder.init cBase).willSave).onDrawDrawable d0).fSaveIsSaveLayer =
      ((SkRecorder.init cBase).willSave).fSaveIsSaveLayer ∧
    (((SkRecorder.init cBase).willSave).onDrawDrawable d0).fSaveLayerCount =
      ((SkRecorder.init cBase).willSave).fSaveLayerCount ∧
    (((SkRecorder.init cBase).willSave).willSave).fDrawableList =
      ((SkRecorder.init cBase).willSave).fDrawableList ∧
    (((SkRecorder.init cBase).willSave).willSaveLayer none none
        0).fDrawableList =
      ((SkRecorder.init cBase).willSave).fDrawableList ∧
    (SkRecorder.mk
        [SkRecordEntry.Save,
          SkRecordEntry.Restore cBase.devBounds cBase.totalMatrix] [] [] 0
        cBase).fDrawableList =
      ((SkRecorder.init cBase).willSave).fDrawableList :=
  C10_draws_frame_neutral ((SkRecorder.init cBase).willSave)
    (appendEntry ((SkRecorder.init cBase).willSave) (SkRecordEntry.Clear 1))
    (SkRecorder.mk
      [SkRecordEntry.Save,
        SkRecordEntry.Restore cBase.devBounds cBase.totalMatrix] [] [] 0
      cBase)
    (DrawCall.clear 1) d0 none none 0 rfl rfl
